import Mathlib

/-!
Verification of the cache-and-refresh engine in
`clients/naming_client/host_reator.go` (the `HostReactor`).

The Go source is shallowly embedded: each method becomes a pure Lean
function that threads the reactor state explicitly and returns the list
of collaborator invocations (network query, persistence write, notifier
call) it performed.  Wall-clock time (`utils.CurrentMillis`) is passed in
as an explicit `now : Nat`; JSON decoding (`utils.JsonToService`,
`json.Unmarshal`) and the network proxy (`serviceProxy`) are abstract
oracles passed as function arguments, since the spec places all wire
encoding and the RPC client outside the core.
-/

set_option autoImplicit false

namespace HostReactorModel

/-- One instance descriptor in a host list.  Its fields (address, port,
metadata) are opaque to the core; only value equality of descriptors
matters, so we keep a representative concrete record
(`model.Instance` is compared by `reflect.DeepEqual`, i.e. field-wise
value equality). -/
structure Instance where
  ip : String
  port : Nat
  weight : Nat
deriving DecidableEq, Repr

/-- `model.Service`: the snapshot for one (name, clusters) pair.
`Hosts` is a Go slice; `nil` and the empty slice both decode to `[]`
here (the source only ever tests `Hosts == nil || len(Hosts) == 0`,
and `reflect.DeepEqual` of host lists is compared on accepted updates
whose lists passed through the same decoder). `CacheMillis` is a
`uint64`. -/
structure Service where
  name : String
  clusters : String
  hosts : List Instance
  cacheMillis : Nat
deriving DecidableEq, Repr

/-- `model.ServiceList` (the `GetAllServiceInfo` result page):
`Count int64`, `Doms []string`.  Modelled from the spec: the `model`
package is not part of the given fragment; the spec describes `listAll`
as returning a plain page of results. -/
structure ServiceList where
  count : Int
  doms : List String
deriving DecidableEq, Repr

/-- The zero value of `model.ServiceList`, i.e. `data := model.ServiceList{}`. -/
def emptyServiceList : ServiceList := { count := 0, doms := [] }

/-- `cache.ConcurrentMap.Get`: first binding for the key, if any.
The concurrent map is modelled as an association list with at most the
usual one-binding-per-key discipline maintained by `mapSet`. -/
def mapGet {α : Type} : List (String × α) → String → Option α
  | [], _ => none
  | (k', v) :: rest, k => if k' = k then some v else mapGet rest k

/-- `cache.ConcurrentMap.Set`: replace the binding for the key, or
append a fresh one. -/
def mapSet {α : Type} : List (String × α) → String → α → List (String × α)
  | [], k, v => [(k, v)]
  | (k', v') :: rest, k, v =>
      if k' = k then (k, v) :: rest else (k', v') :: mapSet rest k v

/-- Modelled from the spec: `utils.GetServiceCacheKey` is not in the
fragment; the spec says the cache key is "order-preserving concatenation
with a separator guaranteed not to appear in either field". -/
def getServiceCacheKey (serviceName clusters : String) : String :=
  serviceName ++ "@@" ++ clusters

/-- `2^64`, the modulus of Go's `uint64`. -/
def U64 : Nat := 18446744073709551616

/-- Go `uint64` subtraction `a - b` (wrapping). -/
def usub64 (a b : Nat) : Nat := (a % U64 + (U64 - b % U64)) % U64

/-- A collaborator invocation performed by the reactor. -/
inductive Effect where
  /-- `serviceProxy.QueryList(serviceName, clusters, port, false)` -/
  | queryList (serviceName clusters : String)
  /-- `cache.WriteServicesToFile(service, cacheDir)` (Persistence) -/
  | writeFile (service : Service)
  /-- `subCallback.ServiceChanged(service)` (Notifier) -/
  | serviceChanged (service : Service)
deriving DecidableEq, Repr

/-- `true` for the downstream collaborators (Persistence and Notifier),
`false` for the registry query. -/
def Effect.isDownstream : Effect → Bool
  | .queryList _ _ => false
  | .writeFile _ => true
  | .serviceChanged _ => true

/-- The mutable state of a `HostReactor`: the snapshot map
(`serviceInfoMap`), the refresh-timestamp map (`updateTimeMap`), the
`updateCacheWhenEmpty` configuration flag, and the state of the
`sync.Mutex` guard `hr.lock` (`locked = true` when held). -/
structure HostReactor where
  serviceInfoMap : List (String × Service)
  updateTimeMap : List (String × Nat)
  updateCacheWhenEmpty : Bool
  locked : Bool
deriving DecidableEq, Repr

/-- `HostReactor.ProcessServiceJson`.  `jsonToService` is the abstract
decoder `utils.JsonToService`; `now` is `utils.CurrentMillis()` (stored
as `uint64`, hence `% U64`).  Returns the new state and the collaborator
invocations, in program order. -/
def processServiceJson (jsonToService : String → Option Service) (now : Nat)
    (hr : HostReactor) (result : String) : HostReactor × List Effect :=
  match jsonToService result with
  | none => (hr, [])
  | some service =>
    let cacheKey := getServiceCacheKey service.name service.clusters
    let oldDomain := mapGet hr.serviceInfoMap cacheKey
    if oldDomain.isSome && !hr.updateCacheWhenEmpty && service.hosts.isEmpty then
      (hr, [])
    else
      let hr' := { hr with
        updateTimeMap := mapSet hr.updateTimeMap cacheKey (now % U64),
        serviceInfoMap := mapSet hr.serviceInfoMap cacheKey service }
      match oldDomain with
      | none => (hr', [Effect.writeFile service, Effect.serviceChanged service])
      | some old =>
        if service.hosts = old.hosts then (hr', [])
        else (hr', [Effect.writeFile service, Effect.serviceChanged service])

/-- `HostReactor.updateServiceNow`, modelling the body that runs once
`hr.lock.Lock()` has succeeded (callers must find the mutex free; see
`getServiceInfo`).  `queryList` is the abstract
`serviceProxy.QueryList(serviceName, clusters, port, false)` oracle:
`.error` is a Go error return, `.ok s` a payload (possibly empty).
Note the source `return`s on the error and empty-payload paths from
inside the critical section without reaching `hr.lock.Unlock()`, which
is mirrored here by leaving `locked := true`. -/
def updateServiceNow (jsonToService : String → Option Service)
    (queryList : String → String → Except String String) (now : Nat)
    (hr : HostReactor) (serviceName clusters key : String) :
    HostReactor × List Effect :=
  let hr1 := { hr with locked := true }
  if (mapGet hr1.serviceInfoMap key).isSome then
    ({ hr1 with locked := false }, [])
  else
    match queryList serviceName clusters with
    | .error _ => (hr1, [Effect.queryList serviceName clusters])
    | .ok result =>
      if result = "" then (hr1, [Effect.queryList serviceName clusters])
      else
        let step := processServiceJson jsonToService now hr1 result
        ({ step.1 with locked := false },
         Effect.queryList serviceName clusters :: step.2)

/-- `HostReactor.GetServiceInfo`.  Returns `none` when the call blocks
forever: on a cache miss the source calls `hr.lock.Lock()`, and if the
mutex is held by no running caller (leaked by a previous
`updateServiceNow` early return) the acquisition never succeeds.
Otherwise returns the final state, the collaborator invocations and the
Go `(model.Service, error)` result. -/
def getServiceInfo (jsonToService : String → Option Service)
    (queryList : String → String → Except String String) (now : Nat)
    (hr : HostReactor) (serviceName clusters : String) :
    Option (HostReactor × List Effect × Except String Service) :=
  let key := getServiceCacheKey serviceName clusters
  match mapGet hr.serviceInfoMap key with
  | some cacheService => some (hr, [], Except.ok cacheService)
  | none =>
    if hr.locked then none
    else
      let step := updateServiceNow jsonToService queryList now hr serviceName clusters key
      match mapGet step.1.serviceInfoMap key with
      | some cacheService => some (step.1, step.2, Except.ok cacheService)
      | none => some (step.1, step.2, Except.error "get service info failed")

/-- `HostReactor.GetAllServiceInfo`.  `getAllList` is the abstract
`serviceProxy.GetAllServiceInfoList` oracle; `unmarshal` is
`json.Unmarshal` into a `model.ServiceList`, modelled as all-or-nothing
(wire decoding is outside the core).  The receiver state is returned to
record that the method never mutates it. -/
def getAllServiceInfo
    (getAllList : String → String → Nat → Nat → Except String String)
    (unmarshal : String → Option ServiceList) (hr : HostReactor)
    (nameSpace groupName : String) (pageNo pageSize : Nat) :
    HostReactor × ServiceList :=
  match getAllList nameSpace groupName pageNo pageSize with
  | .error _ => (hr, emptyServiceList)
  | .ok result =>
    if result = "" then (hr, emptyServiceList)
    else
      match unmarshal result with
      | none => (hr, emptyServiceList)
      | some data => (hr, data)

/-- `HostReactor.asyncUpdateServiceNow`: the scheduled (non-deduplicated)
fetch primitive.  Does not touch the mutex. -/
def asyncUpdateServiceNow (jsonToService : String → Option Service)
    (queryList : String → String → Except String String) (now : Nat)
    (hr : HostReactor) (serviceName clusters : String) :
    HostReactor × List Effect :=
  match queryList serviceName clusters with
  | .error _ => (hr, [Effect.queryList serviceName clusters])
  | .ok result =>
    if result = "" then (hr, [Effect.queryList serviceName clusters])
    else
      let step := processServiceJson jsonToService now hr result
      (step.1, Effect.queryList serviceName clusters :: step.2)

/-- The due-for-refresh test applied by one tick of
`HostReactor.asyncUpdateService` to one stored service: look up the last
refresh time (missing ↦ `uint64(0)`) and compare the wrapping `uint64`
difference against `service.CacheMillis`. -/
def serviceDue (now : Nat) (hr : HostReactor) (service : Service) : Bool :=
  let lastRefTime :=
    (mapGet hr.updateTimeMap
      (getServiceCacheKey service.name service.clusters)).getD 0
  usub64 now lastRefTime > service.cacheMillis

/-- One tick of the `HostReactor.asyncUpdateService` scheduler loop: the
services of `serviceInfoMap` for which a refresh goroutine is
dispatched, in iteration order.  (Worker-slot acquisition bounds
parallelism but never filters a dispatch, so it does not affect this
set.) -/
def tickDispatch (now : Nat) (hr : HostReactor) : List Service :=
  (hr.serviceInfoMap.map Prod.snd).filter (serviceDue now hr)

/-! ### Concrete fixtures shared by the witness theorems -/

/-- A sample instance descriptor. -/
def inst1 : Instance := ⟨"10.0.0.1", 8080, 1⟩

/-- A second, distinct sample instance descriptor. -/
def inst2 : Instance := ⟨"10.0.0.2", 8080, 1⟩

/-- A sample snapshot for service "A" with two hosts. -/
def svcTwoHosts : Service := ⟨"A", "", [inst1, inst2], 5000⟩

/-- The same two hosts as `svcTwoHosts`, in the opposite order. -/
def svcTwoHostsRev : Service := ⟨"A", "", [inst2, inst1], 5000⟩

/-- A sample snapshot for service "A" with an empty host list. -/
def svcNoHosts : Service := ⟨"A", "", [], 5000⟩

/-- A reactor that already caches `svcTwoHosts` under key `"A@@"` with
last refresh time 100, `updateCacheWhenEmpty = false`, mutex free. -/
def hrCached : HostReactor := ⟨[("A@@", svcTwoHosts)], [("A@@", 100)], false, false⟩

/-- A cold reactor: empty maps, `updateCacheWhenEmpty = false`, mutex free. -/
def hrCold : HostReactor := ⟨[], [], false, false⟩

/-! ### Helper lemmas about the map model and `uint64` arithmetic -/

theorem mapGet_mapSet_self {α : Type} (m : List (String × α)) (k : String) (v : α) :
    mapGet (mapSet m k v) k = some v := by
  induction m with
  | nil => simp [mapSet, mapGet]
  | cons p rest ih =>
    obtain ⟨k', v'⟩ := p
    by_cases h : k' = k <;> simp [mapSet, mapGet, h, ih]

theorem mapGet_mapSet_ne {α : Type} (m : List (String × α)) (k k' : String) (v : α)
    (h : k' ≠ k) : mapGet (mapSet m k v) k' = mapGet m k' := by
  induction m with
  | nil => simp [mapSet, mapGet, Ne.symm h]
  | cons p rest ih =>
    obtain ⟨k'', v''⟩ := p
    by_cases hk : k'' = k
    · subst hk
      simp [mapSet, mapGet, Ne.symm h]
    · simp [mapSet, mapGet, hk, ih]

theorem mapGet_mem {α : Type} (m : List (String × α)) (k : String) (v : α)
    (h : mapGet m k = some v) : v ∈ m.map Prod.snd := by
  induction m with
  | nil => simp [mapGet] at h
  | cons p rest ih =>
    obtain ⟨k', v'⟩ := p
    unfold mapGet at h
    by_cases hk : k' = k
    · simp [hk] at h
      simp [h]
    · simp [hk] at h
      simp [ih h]

theorem usub64_eq_sub (a b : Nat) (hb : b ≤ a) (ha : a < U64) :
    usub64 a b = a - b := by
  have hbU : b < U64 := lt_of_le_of_lt hb ha
  unfold usub64
  rw [Nat.mod_eq_of_lt ha, Nat.mod_eq_of_lt hbU]
  have h1 : a + (U64 - b) = (a - b) + U64 := by omega
  rw [h1, Nat.add_mod_right, Nat.mod_eq_of_lt (by omega)]

/-! ### Claim theorems -/

/-- Claim C1: with an existing snapshot for the candidate's cache key,
`updateCacheWhenEmpty = false` and an empty decoded host list,
`ProcessServiceJson` returns with the snapshot store and the
refresh-timestamp map unchanged (for every key) and performs no
persistence write and no notifier call. -/
theorem processServiceJson_rejects_empty_update
    (jsonToService : String → Option Service) (now : Nat) (hr : HostReactor)
    (result : String) (service old : Service)
    (hdec : jsonToService result = some service)
    (hempty : service.hosts = [])
    (hflag : hr.updateCacheWhenEmpty = false)
    (hold : mapGet hr.serviceInfoMap
        (getServiceCacheKey service.name service.clusters) = some old) :
    processServiceJson jsonToService now hr result = (hr, []) := by
  unfold processServiceJson
  rw [hdec]
  simp only [hold, hflag, hempty]
  simp

/-- Witness for C1: a concrete reactor with a cached two-host snapshot,
the flag off, and an empty candidate is left exactly unchanged. -/
theorem processServiceJson_rejects_empty_update_witness :
    processServiceJson (fun _ => some svcNoHosts) 200 hrCached "payload"
      = (hrCached, []) :=
  processServiceJson_rejects_empty_update (fun _ => some svcNoHosts) 200 hrCached
    "payload" svcNoHosts svcTwoHosts rfl rfl rfl (by decide)

/-- Claim C10: an empty-host candidate whose cache key is absent from the
snapshot store is accepted and stored even with
`updateCacheWhenEmpty = false` — persistence and the notifier both fire
(no previous snapshot), and a subsequent `GetServiceInfo` for that key
succeeds from cache, returning the zero-host snapshot. -/
theorem processServiceJson_accepts_empty_for_new_key
    (jsonToService jts' : String → Option Service)
    (queryList : String → String → Except String String)
    (now now' : Nat) (hr : HostReactor) (result : String) (service : Service)
    (hdec : jsonToService result = some service)
    (hempty : service.hosts = [])
    (hflag : hr.updateCacheWhenEmpty = false)
    (hmiss : mapGet hr.serviceInfoMap
        (getServiceCacheKey service.name service.clusters) = none) :
    mapGet (processServiceJson jsonToService now hr result).1.serviceInfoMap
        (getServiceCacheKey service.name service.clusters) = some service
    ∧ (processServiceJson jsonToService now hr result).2
        = [Effect.writeFile service, Effect.serviceChanged service]
    ∧ getServiceInfo jts' queryList now'
        (processServiceJson jsonToService now hr result).1 service.name service.clusters
        = some ((processServiceJson jsonToService now hr result).1, [], Except.ok service)
    ∧ service.hosts = [] := by
  have hstep : processServiceJson jsonToService now hr result
      = ({ hr with
            updateTimeMap := mapSet hr.updateTimeMap
              (getServiceCacheKey service.name service.clusters) (now % U64),
            serviceInfoMap := mapSet hr.serviceInfoMap
              (getServiceCacheKey service.name service.clusters) service },
         [Effect.writeFile service, Effect.serviceChanged service]) := by
    unfold processServiceJson
    rw [hdec]
    simp only [hmiss]
    simp
  rw [hstep]
  refine ⟨mapGet_mapSet_self _ _ _, rfl, ?_, hempty⟩
  unfold getServiceInfo
  simp only [mapGet_mapSet_self]

/-- Witness for C10: a cold cache, flag off, empty-host candidate for
service "A": the snapshot is stored, both side effects fire, and the
follow-up lookup returns the empty-host snapshot. -/
theorem processServiceJson_accepts_empty_for_new_key_witness :
    mapGet (processServiceJson (fun _ => some svcNoHosts) 200 hrCold
        "payload").1.serviceInfoMap
        (getServiceCacheKey svcNoHosts.name svcNoHosts.clusters) = some svcNoHosts
    ∧ (processServiceJson (fun _ => some svcNoHosts) 200 hrCold "payload").2
        = [Effect.writeFile svcNoHosts, Effect.serviceChanged svcNoHosts]
    ∧ getServiceInfo (fun _ => none) (fun _ _ => Except.error "down") 300
        (processServiceJson (fun _ => some svcNoHosts) 200 hrCold "payload").1
        svcNoHosts.name svcNoHosts.clusters
        = some ((processServiceJson (fun _ => some svcNoHosts) 200 hrCold "payload").1,
            [], Except.ok svcNoHosts)
    ∧ svcNoHosts.hosts = [] :=
  processServiceJson_accepts_empty_for_new_key (fun _ => some svcNoHosts)
    (fun _ => none) (fun _ _ => Except.error "down") 200 300 hrCold "payload"
    svcNoHosts rfl rfl rfl (by decide)

/-- Claim C2 (refuted — code bug): `updateServiceNow` does NOT release
the mutex on every path.  At a concrete input where the key is absent
and `QueryList` returns an error, the function returns with the mutex
still held (the source `return`s before reaching `hr.lock.Unlock()`,
and there is no `defer`); the empty-payload path leaks it likewise,
while the re-check-hit and successful-processing paths do release it. -/
theorem updateServiceNow_leaks_lock_on_failure :
    (updateServiceNow (fun _ => none) (fun _ _ => Except.error "connection refused")
        0 hrCold "A" "" "A@@").1.locked = true
    ∧ (updateServiceNow (fun _ => none) (fun _ _ => Except.ok "") 0
        hrCold "A" "" "A@@").1.locked = true
    ∧ (updateServiceNow (fun _ => none) (fun _ _ => Except.ok "x") 0
        hrCached "A" "" "A@@").1.locked = false
    ∧ (updateServiceNow (fun _ => some svcTwoHosts) (fun _ _ => Except.ok "x") 0
        hrCold "A" "" "A@@").1.locked = false := by
  decide

/-- Claim C3 (counterexample): change detection is NOT order-insensitive.
The cached snapshot holds hosts `[inst1, inst2]` and the accepted
candidate holds the same two descriptors reversed — equal as sets — yet
the pipeline invokes both persistence and the notifier, because the
source compares the host slices with `reflect.DeepEqual`, which is
order-sensitive. -/
theorem processServiceJson_order_sensitive_cex :
    svcTwoHostsRev.hosts.toFinset = svcTwoHosts.hosts.toFinset
    ∧ mapGet hrCached.serviceInfoMap
        (getServiceCacheKey svcTwoHostsRev.name svcTwoHostsRev.clusters)
        = some svcTwoHosts
    ∧ (processServiceJson (fun _ => some svcTwoHostsRev) 200 hrCached "payload").2
        = [Effect.writeFile svcTwoHostsRev, Effect.serviceChanged svcTwoHostsRev] := by
  decide

/-- Claim C3 (amended): change detection is order-SENSITIVE.  For every
accepted candidate with an existing previous snapshot, persistence and
the notifier are skipped iff the candidate's host list equals the
previous host list element-wise in the same order; otherwise (including
a mere permutation of the same hosts) both fire, in that order. -/
theorem processServiceJson_change_detection_ordered
    (jsonToService : String → Option Service) (now : Nat) (hr : HostReactor)
    (result : String) (service old : Service)
    (hdec : jsonToService result = some service)
    (hold : mapGet hr.serviceInfoMap
        (getServiceCacheKey service.name service.clusters) = some old)
    (hacc : hr.updateCacheWhenEmpty = true ∨ service.hosts ≠ []) :
    (processServiceJson jsonToService now hr result).2
      = if service.hosts = old.hosts then []
        else [Effect.writeFile service, Effect.serviceChanged service] := by
  unfold processServiceJson
  rw [hdec]
  simp only [hold]
  have hguard : ((some old).isSome && !hr.updateCacheWhenEmpty
      && service.hosts.isEmpty) = false := by
    rcases hacc with hflag | hne
    · simp [hflag]
    · simp [List.isEmpty_iff, hne]
  rw [hguard]
  by_cases heq : service.hosts = old.hosts <;> simp [heq]

/-- Witness for the amended C3: the reversed two-host candidate differs
element-wise from the cached list, so both side effects fire. -/
theorem processServiceJson_change_detection_ordered_witness :
    (processServiceJson (fun _ => some svcTwoHostsRev) 200 hrCached "payload").2
      = [Effect.writeFile svcTwoHostsRev, Effect.serviceChanged svcTwoHostsRev] :=
  (processServiceJson_change_detection_ordered (fun _ => some svcTwoHostsRev) 200
      hrCached "payload" svcTwoHostsRev svcTwoHosts rfl (by decide)
      (Or.inr (by decide))).trans (by decide)

/-- Claim C4: every accepted update stores `now` (as `uint64`) as the
key's refresh timestamp and replaces the snapshot, whether or not the
host list changed; all other keys of both maps, the configuration flag
and the mutex are untouched; and when the host list equals the previous
snapshot's, no persistence write and no notifier call occur. -/
theorem processServiceJson_accept_records_time_and_snapshot
    (jsonToService : String → Option Service) (now : Nat) (hr : HostReactor)
    (result : String) (service : Service)
    (hdec : jsonToService result = some service)
    (hacc : mapGet hr.serviceInfoMap
        (getServiceCacheKey service.name service.clusters) = none
      ∨ hr.updateCacheWhenEmpty = true ∨ service.hosts ≠ [])
    (hnow : now < U64) :
    mapGet (processServiceJson jsonToService now hr result).1.updateTimeMap
        (getServiceCacheKey service.name service.clusters) = some now
    ∧ mapGet (processServiceJson jsonToService now hr result).1.serviceInfoMap
        (getServiceCacheKey service.name service.clusters) = some service
    ∧ (∀ k, k ≠ getServiceCacheKey service.name service.clusters →
        mapGet (processServiceJson jsonToService now hr result).1.serviceInfoMap k
          = mapGet hr.serviceInfoMap k
        ∧ mapGet (processServiceJson jsonToService now hr result).1.updateTimeMap k
          = mapGet hr.updateTimeMap k)
    ∧ (processServiceJson jsonToService now hr result).1.updateCacheWhenEmpty
        = hr.updateCacheWhenEmpty
    ∧ (processServiceJson jsonToService now hr result).1.locked = hr.locked
    ∧ (∀ old, mapGet hr.serviceInfoMap
          (getServiceCacheKey service.name service.clusters) = some old →
        service.hosts = old.hosts →
        (processServiceJson jsonToService now hr result).2 = []) := by
  have hstate : (processServiceJson jsonToService now hr result).1
      = { hr with
          updateTimeMap := mapSet hr.updateTimeMap
            (getServiceCacheKey service.name service.clusters) (now % U64),
          serviceInfoMap := mapSet hr.serviceInfoMap
            (getServiceCacheKey service.name service.clusters) service } := by
    unfold processServiceJson
    rw [hdec]
    rcases hh : mapGet hr.serviceInfoMap
        (getServiceCacheKey service.name service.clusters) with _ | old
    · simp [hh]
    · have hcond : ¬(hr.updateCacheWhenEmpty = false ∧ service.hosts = []) := by
        rcases hacc with hmiss | hflag | hne
        · simp [hmiss] at hh
        · intro h
          rw [hflag] at h
          exact Bool.noConfusion h.1
        · intro h
          exact hne h.2
      by_cases heq : service.hosts = old.hosts
      · have hcond' : ¬(hr.updateCacheWhenEmpty = false ∧ old.hosts = []) := by
          rw [← heq]
          exact hcond
        simp [hh, heq, hcond']
      · simp [hh, heq, hcond]
  refine ⟨?_, ?_, ?_, ?_, ?_, ?_⟩
  · rw [hstate]
    simpa [Nat.mod_eq_of_lt hnow] using
      mapGet_mapSet_self hr.updateTimeMap
        (getServiceCacheKey service.name service.clusters) (now % U64)
  · rw [hstate]
    exact mapGet_mapSet_self _ _ _
  · intro k hk
    rw [hstate]
    exact ⟨mapGet_mapSet_ne _ _ _ _ hk, mapGet_mapSet_ne _ _ _ _ hk⟩
  · rw [hstate]
  · rw [hstate]
  · intro old hold heq
    have hcond' : ¬(hr.updateCacheWhenEmpty = false ∧ old.hosts = []) := by
      rcases hacc with hmiss | hflag | hne
      · simp [hmiss] at hold
      · intro h
        rw [hflag] at h
        exact Bool.noConfusion h.1
      · intro h
        exact hne (heq.trans h.2)
    unfold processServiceJson
    rw [hdec]
    simp [hold, heq, hcond']

/-- Witness for C4: a steady-state refresh that re-delivers the cached
two-host list: the timestamp moves to 200, the snapshot is rewritten,
other keys and the flag/mutex are untouched, and no side effect fires. -/
theorem processServiceJson_accept_records_time_and_snapshot_witness :
    mapGet (processServiceJson (fun _ => some svcTwoHosts) 200 hrCached
        "payload").1.updateTimeMap
        (getServiceCacheKey svcTwoHosts.name svcTwoHosts.clusters) = some 200
    ∧ mapGet (processServiceJson (fun _ => some svcTwoHosts) 200 hrCached
        "payload").1.serviceInfoMap
        (getServiceCacheKey svcTwoHosts.name svcTwoHosts.clusters) = some svcTwoHosts
    ∧ (∀ k, k ≠ getServiceCacheKey svcTwoHosts.name svcTwoHosts.clusters →
        mapGet (processServiceJson (fun _ => some svcTwoHosts) 200 hrCached
          "payload").1.serviceInfoMap k = mapGet hrCached.serviceInfoMap k
        ∧ mapGet (processServiceJson (fun _ => some svcTwoHosts) 200 hrCached
          "payload").1.updateTimeMap k = mapGet hrCached.updateTimeMap k)
    ∧ (processServiceJson (fun _ => some svcTwoHosts) 200 hrCached
        "payload").1.updateCacheWhenEmpty = hrCached.updateCacheWhenEmpty
    ∧ (processServiceJson (fun _ => some svcTwoHosts) 200 hrCached
        "payload").1.locked = hrCached.locked
    ∧ (∀ old, mapGet hrCached.serviceInfoMap
          (getServiceCacheKey svcTwoHosts.name svcTwoHosts.clusters) = some old →
        svcTwoHosts.hosts = old.hosts →
        (processServiceJson (fun _ => some svcTwoHosts) 200 hrCached "payload").2 = []) :=
  processServiceJson_accept_records_time_and_snapshot (fun _ => some svcTwoHosts)
    200 hrCached "payload" svcTwoHosts rfl (Or.inr (Or.inr (by decide))) (by decide)

/-- Claim C5: whenever the registry query fails or returns an empty
payload (hypothesis `hq`: every successful payload for this key is
empty or decodes to nothing), both refresh paths leave the snapshot
store and the refresh-timestamp map unchanged and invoke no downstream
collaborator (the net effect is at most the query itself); and
`ProcessServiceJson` on any payload that decodes to `nil` is a complete
no-op. -/
theorem refresh_failure_leaves_cache_unchanged
    (jsonToService : String → Option Service)
    (queryList : String → String → Except String String)
    (now : Nat) (hr : HostReactor) (serviceName clusters key : String)
    (hq : ∀ r, queryList serviceName clusters = Except.ok r →
        r = "" ∨ jsonToService r = none) :
    asyncUpdateServiceNow jsonToService queryList now hr serviceName clusters
      = (hr, [Effect.queryList serviceName clusters])
    ∧ (updateServiceNow jsonToService queryList now hr serviceName clusters key).1.serviceInfoMap
        = hr.serviceInfoMap
    ∧ (updateServiceNow jsonToService queryList now hr serviceName clusters key).1.updateTimeMap
        = hr.updateTimeMap
    ∧ (∀ ef ∈ (updateServiceNow jsonToService queryList now hr serviceName clusters key).2,
        ef.isDownstream = false)
    ∧ (∀ result, jsonToService result = none →
        processServiceJson jsonToService now hr result = (hr, [])) := by
  have hnil : ∀ result (hr' : HostReactor), jsonToService result = none →
      processServiceJson jsonToService now hr' result = (hr', []) := by
    intro result hr' hres
    unfold processServiceJson
    rw [hres]
  have hasync : asyncUpdateServiceNow jsonToService queryList now hr serviceName clusters
      = (hr, [Effect.queryList serviceName clusters]) := by
    unfold asyncUpdateServiceNow
    rcases hr' : queryList serviceName clusters with e | r
    · rfl
    · rcases hq r hr' with hempty | hdec
      · simp [hempty]
      · simp [hnil r hr hdec]
      -- in the non-empty case the payload decodes to nothing, so
      -- processServiceJson is the identity
  refine ⟨hasync, ?_, ?_, ?_, fun result hres => hnil result hr hres⟩ <;>
    · unfold updateServiceNow
      rcases hmem : (mapGet hr.serviceInfoMap key).isSome with _ | _
      · rcases hr' : queryList serviceName clusters with e | r
        · simp [hmem, hr', Effect.isDownstream]
        · rcases hq r hr' with hempty | hdec
          · simp [hmem, hr', hempty, Effect.isDownstream]
          · by_cases hre : r = ""
            · simp [hmem, hr', hre, Effect.isDownstream]
            · simp [hmem, hr', hre, hnil r _ hdec, Effect.isDownstream]
      · simp [hmem]

/-- Witness for C5: a proxy that always errors leaves the cached state
intact on both refresh paths, and a decoder that always yields `nil`
makes `ProcessServiceJson` a no-op. -/
theorem refresh_failure_leaves_cache_unchanged_witness :
    asyncUpdateServiceNow (fun _ => none) (fun _ _ => Except.error "down") 200
        hrCached "A" ""
      = (hrCached, [Effect.queryList "A" ""])
    ∧ (updateServiceNow (fun _ => none) (fun _ _ => Except.error "down") 200
        hrCached "A" "" "missing").1.serviceInfoMap = hrCached.serviceInfoMap
    ∧ (updateServiceNow (fun _ => none) (fun _ _ => Except.error "down") 200
        hrCached "A" "" "missing").1.updateTimeMap = hrCached.updateTimeMap
    ∧ (∀ ef ∈ (updateServiceNow (fun _ => none) (fun _ _ => Except.error "down") 200
        hrCached "A" "" "missing").2, ef.isDownstream = false)
    ∧ (∀ result, (fun (_ : String) => (none : Option Service)) result = none →
        processServiceJson (fun _ => none) 200 hrCached result = (hrCached, [])) :=
  refresh_failure_leaves_cache_unchanged (fun _ => none)
    (fun _ _ => Except.error "down") 200 hrCached "A" "" "missing"
    (fun _ h => Except.noConfusion h)

/-- Claim C6: a scheduler tick dispatches a refresh for a stored service
iff `now - lastRefreshTime` strictly exceeds its `CacheMillis`, where a
missing timestamp counts as 0 (hence immediately due for any `now`
beyond the window).  The hypotheses pin the `uint64` arithmetic to the
mathematical reading: `now` fits in 64 bits and no recorded timestamp
lies in the future. -/
theorem asyncUpdateService_dispatch_iff
    (now : Nat) (hr : HostReactor) (service : Service)
    (hnow : now < U64)
    (hts : ∀ t ∈ hr.updateTimeMap.map Prod.snd, t ≤ now) :
    service ∈ tickDispatch now hr ↔
      service ∈ hr.serviceInfoMap.map Prod.snd
      ∧ now - ((mapGet hr.updateTimeMap
            (getServiceCacheKey service.name service.clusters)).getD 0)
          > service.cacheMillis := by
  have hlast : ((mapGet hr.updateTimeMap
      (getServiceCacheKey service.name service.clusters)).getD 0) ≤ now := by
    rcases hh : mapGet hr.updateTimeMap
        (getServiceCacheKey service.name service.clusters) with _ | t
    · simp
    · simpa using hts t (mapGet_mem _ _ _ hh)
  have hdue : (serviceDue now hr service = true) ↔
      now - ((mapGet hr.updateTimeMap
          (getServiceCacheKey service.name service.clusters)).getD 0)
        > service.cacheMillis := by
    simp only [serviceDue, decide_eq_true_eq]
    rw [usub64_eq_sub _ _ hlast hnow]
  unfold tickDispatch
  rw [List.mem_filter, hdue]

/-- Witness for C6: in a reactor caching one service with
`CacheMillis = 5000` last refreshed at 100, the tick at `now = 6000`
(elapsed 5900) dispatches that service. -/
theorem asyncUpdateService_dispatch_iff_witness :
    svcTwoHosts ∈ tickDispatch 6000 hrCached
    ↔ svcTwoHosts ∈ hrCached.serviceInfoMap.map Prod.snd
      ∧ 6000 - ((mapGet hrCached.updateTimeMap
            (getServiceCacheKey svcTwoHosts.name svcTwoHosts.clusters)).getD 0)
          > svcTwoHosts.cacheMillis :=
  asyncUpdateService_dispatch_iff 6000 hrCached svcTwoHosts (by decide) (by decide)

/-- Claim C7: `GetServiceInfo` serves a cached key from the store with
no error, no side effect (in particular no network query) and no state
change; on a miss it runs the on-demand fetch and then returns an error
iff the key is still absent from the store, and the now-cached snapshot
otherwise.  (`hlock`: the mutex is free at entry, so the call does not
block.) -/
theorem getServiceInfo_resolves_or_errors
    (jsonToService : String → Option Service)
    (queryList : String → String → Except String String)
    (now : Nat) (hr : HostReactor) (serviceName clusters : String)
    (hlock : hr.locked = false) :
    ∃ out : HostReactor × List Effect × Except String Service,
      getServiceInfo jsonToService queryList now hr serviceName clusters = some out
      ∧ (∀ s, mapGet hr.serviceInfoMap (getServiceCacheKey serviceName clusters) = some s →
          out = (hr, [], Except.ok s))
      ∧ ((∃ e, out.2.2 = Except.error e) ↔
          mapGet out.1.serviceInfoMap (getServiceCacheKey serviceName clusters) = none)
      ∧ (∀ s, mapGet out.1.serviceInfoMap (getServiceCacheKey serviceName clusters) = some s →
          out.2.2 = Except.ok s) := by
  rcases hh : mapGet hr.serviceInfoMap (getServiceCacheKey serviceName clusters) with _ | s
  · rcases hh2 : mapGet (updateServiceNow jsonToService queryList now hr serviceName
        clusters (getServiceCacheKey serviceName clusters)).1.serviceInfoMap
        (getServiceCacheKey serviceName clusters) with _ | s'
    · refine ⟨((updateServiceNow jsonToService queryList now hr serviceName clusters
          (getServiceCacheKey serviceName clusters)).1,
        (updateServiceNow jsonToService queryList now hr serviceName clusters
          (getServiceCacheKey serviceName clusters)).2,
        Except.error "get service info failed"), ?_, ?_, ?_, ?_⟩
      · unfold getServiceInfo
        simp [hh, hlock, hh2]
      · intro s hs
        exact Option.noConfusion hs
      · exact ⟨fun _ => hh2, fun _ => ⟨"get service info failed", rfl⟩⟩
      · intro s hs
        exact Option.noConfusion (hh2.symm.trans hs)
    · refine ⟨((updateServiceNow jsonToService queryList now hr serviceName clusters
          (getServiceCacheKey serviceName clusters)).1,
        (updateServiceNow jsonToService queryList now hr serviceName clusters
          (getServiceCacheKey serviceName clusters)).2,
        Except.ok s'), ?_, ?_, ?_, ?_⟩
      · unfold getServiceInfo
        simp [hh, hlock, hh2]
      · intro s hs
        exact Option.noConfusion hs
      · constructor
        · intro ⟨e, he⟩
          exact Except.noConfusion he
        · intro habs
          exact Option.noConfusion (hh2.symm.trans habs)
      · intro s hs
        have h : s' = s := Option.some.inj (hh2.symm.trans hs)
        subst h
        rfl
  · refine ⟨(hr, [], Except.ok s), ?_, ?_, ?_, ?_⟩
    · unfold getServiceInfo
      simp [hh]
    · intro s' hs'
      have h : s = s' := Option.some.inj hs'
      subst h
      rfl
    · constructor
      · intro ⟨e, he⟩
        exact Except.noConfusion he
      · intro habs
        exact Option.noConfusion (hh.symm.trans habs)
    · intro s' hs'
      have h : s = s' := Option.some.inj (hh.symm.trans hs')
      subst h
      rfl

/-- Witness for C7: a cache-hit lookup on the cached reactor resolves
without blocking. -/
theorem getServiceInfo_resolves_or_errors_witness :
    ∃ out : HostReactor × List Effect × Except String Service,
      getServiceInfo (fun _ => none) (fun _ _ => Except.error "down") 0 hrCached "A" ""
        = some out
      ∧ (∀ s, mapGet hrCached.serviceInfoMap (getServiceCacheKey "A" "") = some s →
          out = (hrCached, [], Except.ok s))
      ∧ ((∃ e, out.2.2 = Except.error e) ↔
          mapGet out.1.serviceInfoMap (getServiceCacheKey "A" "") = none)
      ∧ (∀ s, mapGet out.1.serviceInfoMap (getServiceCacheKey "A" "") = some s →
          out.2.2 = Except.ok s) :=
  getServiceInfo_resolves_or_errors (fun _ => none) (fun _ _ => Except.error "down")
    0 hrCached "A" "" rfl

/-- Claim C8 (refuted — code bug): two callers looking up the same
uncached key do NOT both observe the resolution error when the query
fails.  The first caller issues the single query, gets the error result
and returns while the mutex is still held (the leak shown for C2); the
second caller then blocks forever in `hr.lock.Lock()` (modelled as
`none`) instead of observing the same error.  Caller executions are
serialized here, which is the interleaving the shared guard itself
enforces on the miss path. -/
theorem concurrent_lookup_second_caller_blocks :
    getServiceInfo (fun _ => none) (fun _ _ => Except.error "down") 0 hrCold "B" ""
      = some (⟨[], [], false, true⟩, [Effect.queryList "B" ""],
          Except.error "get service info failed")
    ∧ getServiceInfo (fun _ => none) (fun _ _ => Except.error "down") 0
        ⟨[], [], false, true⟩ "B" "" = none :=
  ⟨rfl, rfl⟩

/-- Claim C9: `GetAllServiceInfo` surfaces no error: its receiver state
is returned untouched (it never reads or writes the snapshot or
timestamp maps), any proxy error, empty payload or failed unmarshal
yields the zero `ServiceList`, and a successful unmarshal yields exactly
the decoded value.  (The decoder is modelled all-or-nothing; wire
decoding is outside the core.) -/
theorem getAllServiceInfo_absorbs_failures
    (getAllList : String → String → Nat → Nat → Except String String)
    (unmarshal : String → Option ServiceList) (hr : HostReactor)
    (nameSpace groupName : String) (pageNo pageSize : Nat) :
    (getAllServiceInfo getAllList unmarshal hr nameSpace groupName pageNo pageSize).1 = hr
    ∧ ((∀ r, getAllList nameSpace groupName pageNo pageSize = Except.ok r →
          r = "" ∨ unmarshal r = none) →
        (getAllServiceInfo getAllList unmarshal hr nameSpace groupName pageNo pageSize).2
          = emptyServiceList)
    ∧ (∀ r data, getAllList nameSpace groupName pageNo pageSize = Except.ok r →
        r ≠ "" → unmarshal r = some data →
        (getAllServiceInfo getAllList unmarshal hr nameSpace groupName pageNo pageSize).2
          = data) := by
  refine ⟨?_, ?_, ?_⟩
  · unfold getAllServiceInfo
    rcases hq : getAllList nameSpace groupName pageNo pageSize with e | r
    · rfl
    · by_cases hre : r = ""
      · simp [hre]
      · rcases hu : unmarshal r with _ | data <;> simp [hre, hu]
  · intro hfail
    unfold getAllServiceInfo
    rcases hq : getAllList nameSpace groupName pageNo pageSize with e | r
    · rfl
    · rcases hfail r hq with hre | hu
      · simp [hre]
      · by_cases hre : r = "" <;> simp [hre, hu]
  · intro r data hq hre hu
    unfold getAllServiceInfo
    rw [hq]
    simp [hre, hu]

/-- Witness for C9: a proxy that always errors yields the untouched state
and the zero page; a succeeding proxy with a succeeding decoder yields
the decoded page. -/
theorem getAllServiceInfo_absorbs_failures_witness :
    (getAllServiceInfo (fun _ _ _ _ => Except.error "down") (fun _ => none)
        hrCached "ns" "g" 1 10).1 = hrCached
    ∧ (getAllServiceInfo (fun _ _ _ _ => Except.error "down") (fun _ => none)
        hrCached "ns" "g" 1 10).2 = emptyServiceList
    ∧ (getAllServiceInfo (fun _ _ _ _ => Except.ok "page") (fun _ => some ⟨2, ["a", "b"]⟩)
        hrCached "ns" "g" 1 10).2 = (⟨2, ["a", "b"]⟩ : ServiceList) :=
  ⟨(getAllServiceInfo_absorbs_failures (fun _ _ _ _ => Except.error "down")
      (fun _ => none) hrCached "ns" "g" 1 10).1,
   (getAllServiceInfo_absorbs_failures (fun _ _ _ _ => Except.error "down")
      (fun _ => none) hrCached "ns" "g" 1 10).2.1 (fun r h => Except.noConfusion h),
   (getAllServiceInfo_absorbs_failures (fun _ _ _ _ => Except.ok "page")
      (fun _ => some ⟨2, ["a", "b"]⟩) hrCached "ns" "g" 1 10).2.2 "page" ⟨2, ["a", "b"]⟩
      rfl (by decide) rfl⟩

end HostReactorModel
